import Mathlib

/-
Verification of the multi-stage file ingestion pipeline of the
dy_gh_watch_and_upload repository.

The Python sources are shallowly embedded as executable Lean definitions:
  - src/src/models/upload_result.py   : the persisted UploadResult record
  - src/src/models/file_info.py       : the persisted FileInfo record
  - src/src/services/file_processor.py: FileProcessor (processing stage)
  - src/src/services/upload_service.py: UploadService (upload stage)
  - src/src/services/api_client.py    : APIClient preconditions
  - src/src/uploader/service.py       : UploaderService.upload_and_record
  - src/src/services/scheduler.py     : MonitoringScheduler.process_pending_uploads
Stateful code is modelled by explicit state passing; callback invocations,
sleeps, queue operations and database writes are recorded as event traces.
-/

namespace WatchUpload

/-! ## Persisted UploadResult record (src/src/models/upload_result.py) -/

/-- Error details attached by mark_upload_failed callers: an error-type or
api-response summary together with the attempt number recorded by
UploaderService._handle_upload_failure. -/
structure ErrDetails where
  info : String
  attemptNumber : Option Nat
deriving DecidableEq, Repr

/-- Payload of a successful transport response, the fields that
update_api_response reads from the api_response dict. -/
structure ApiResp where
  fileId : Option String
  filename : Option String
  fileSize : Option Nat
  downloadUrl : Option String
  viewUrl : Option String
  message : Option String
deriving DecidableEq, Repr, Inhabited

/-- The columns of the upload_results table that the pipeline logic reads
and writes (upload_result.py lines 44-54). -/
structure UploadResult where
  uploadStatus : String
  uploadAttempts : Nat
  apiFileId : Option String
  apiFilename : Option String
  apiFileSize : Option Nat
  downloadUrl : Option String
  viewUrl : Option String
  apiMessage : Option String
  errorMessage : Option String
  errorDetails : Option ErrDetails
deriving DecidableEq, Repr

/-- A freshly created record, as produced by UploadResult.create_from_file_info:
the upload_status column defaults to pending and upload_attempts to 0. -/
def UploadResult.fresh : UploadResult :=
  { uploadStatus := "pending", uploadAttempts := 0, apiFileId := none,
    apiFilename := none, apiFileSize := none, downloadUrl := none,
    viewUrl := none, apiMessage := none, errorMessage := none,
    errorDetails := none }

/-- upload_result.py lines 78-101: copy the api response fields, set the
status to success and bump the attempt counter. -/
def UploadResult.updateApiResponse (r : UploadResult) (resp : ApiResp) : UploadResult :=
  { r with
    apiFileId := resp.fileId,
    apiFilename := resp.filename,
    apiFileSize := resp.fileSize,
    downloadUrl := resp.downloadUrl,
    viewUrl := resp.viewUrl,
    apiMessage := resp.message,
    uploadStatus := "success",
    uploadAttempts := r.uploadAttempts + 1 }

/-- upload_result.py lines 103-111: set the status to failed, bump the
attempt counter and store the error information. The message is optional
because UploadService passes upload_task.error_message, which may be None. -/
def UploadResult.markUploadFailed (r : UploadResult) (msg : Option String)
    (details : Option ErrDetails) : UploadResult :=
  { r with
    uploadStatus := "failed",
    uploadAttempts := r.uploadAttempts + 1,
    errorMessage := msg,
    errorDetails := details }

/-- upload_result.py lines 113-118. -/
def UploadResult.markInProgress (r : UploadResult) : UploadResult :=
  { r with uploadStatus := "in_progress" }

/-- upload_result.py lines 120-126. -/
def UploadResult.resetForRetry (r : UploadResult) : UploadResult :=
  { r with uploadStatus := "pending", errorMessage := none, errorDetails := none }

/-- The mutating operations offered by the UploadResult model. -/
inductive UROp
  | updateApiResponse (resp : ApiResp)
  | markUploadFailed (msg : Option String) (details : Option ErrDetails)
  | markInProgress
  | resetForRetry
deriving DecidableEq, Repr

def UploadResult.applyOp (r : UploadResult) : UROp → UploadResult
  | UROp.updateApiResponse resp => r.updateApiResponse resp
  | UROp.markUploadFailed msg details => r.markUploadFailed msg details
  | UROp.markInProgress => r.markInProgress
  | UROp.resetForRetry => r.resetForRetry

def UploadResult.applyOps (r : UploadResult) (ops : List UROp) : UploadResult :=
  ops.foldl UploadResult.applyOp r

/-! ## FileProcessor (src/src/services/file_processor.py) -/

/-- The members of the FileStatus enum, file_processor.py lines 28-36. -/
inductive FileStatus
  | pending
  | processing
  | readyForUpload
  | uploading
  | uploaded
  | failed
  | skipped
deriving DecidableEq, Repr

/-- Python-style dynamic member access on the FileStatus enum: the value of
the expression FileStatus.NAME, or none when the access raises
AttributeError. The domain is exactly the member list at lines 29-36. -/
def fileStatusMember : String → Option FileStatus
  | "PENDING" => some FileStatus.pending
  | "PROCESSING" => some FileStatus.processing
  | "READY_FOR_UPLOAD" => some FileStatus.readyForUpload
  | "UPLOADING" => some FileStatus.uploading
  | "UPLOADED" => some FileStatus.uploaded
  | "FAILED" => some FileStatus.failed
  | "SKIPPED" => some FileStatus.skipped
  | _ => none

/-- The FileTask dataclass, file_processor.py lines 39-50 (fields the
pipeline logic reads; file_info is tracked separately as a record status). -/
structure FileTask where
  filePath : String
  status : FileStatus
  priority : Int
  retryCount : Nat
  maxRetries : Nat
  errorMessage : Option String
deriving DecidableEq, Repr

/-- Configuration consumed by _validate_file, file_processor.py lines 344-364. -/
structure FPConfig where
  maxFileSize : Nat
  imageExtensions : List String
deriving DecidableEq, Repr

/-- The filesystem facts _validate_file inspects about one path:
existence, size in bytes, lower-cased suffix. -/
structure SrcFile where
  present : Bool
  size : Nat
  suffix : String
deriving DecidableEq, Repr

/-- file_processor.py lines 344-364: exists, size within max_file_size,
suffix among the allowed image extensions. -/
def validateFile (cfg : FPConfig) (f : SrcFile) : Bool :=
  if f.present = false then false
  else if cfg.maxFileSize < f.size then false
  else if (cfg.imageExtensions.contains f.suffix) = false then false
  else true

/-- Observable outcome of one FileProcessor._process_file run: final task
status and error, final persisted FileInfo.processing_status, whether the
task was placed on the upload queue, and whether the failure callback ran. -/
structure PFResult where
  taskStatus : FileStatus
  taskError : Option String
  fileRecordStatus : String
  enqueuedUpload : Bool
  failedCallbackFired : Bool
deriving DecidableEq, Repr

/-- The try-block of _process_file, lines 279-330, as an Except value whose
error is the message an escaping exception carries. Lines 296-307
(extract_image_metadata, calculate_checksum) catch their own exceptions and
only mutate metadata plus the intermediate record status, which every later
branch overwrites, so they contribute no control flow here. Line 310
evaluates FileStatus.COMPLETED, a dynamic member access modelled by
fileStatusMember; line 316 would then read self.on_file_processed, an
attribute never assigned on FileProcessor (the fields set in the
constructor, lines 117-120, all end in _callback), modelled by a lookup in
the constructor-assigned callback attributes. -/
def processFileBody (cfg : FPConfig) (f : SrcFile) : Except String PFResult :=
  if validateFile cfg f = false then
    Except.ok
      { taskStatus := FileStatus.failed,
        taskError := some ("파일 유효성 검사 실패"),
        fileRecordStatus := "error",
        enqueuedUpload := false,
        failedCallbackFired := false }
  else
    match fileStatusMember ("COMPLETED") with
    | none => Except.error ("파일 처리 실패: AttributeError: COMPLETED")
    | some s =>
        if ["on_file_processed_callback", "on_file_ready_for_upload_callback",
            "on_file_uploaded_callback", "on_file_failed_callback"].contains
            "on_file_processed" then
          Except.ok
            { taskStatus := s,
              taskError := none,
              fileRecordStatus := "processed",
              enqueuedUpload := true,
              failedCallbackFired := false }
        else Except.error ("파일 처리 실패: AttributeError: on_file_processed")

/-- FileProcessor._process_file, lines 277-342: run the body; the except
handler (lines 332-342) marks the task FAILED, the record error, and fires
the failure callback when one is registered. -/
def processFile (cfg : FPConfig) (f : SrcFile) (failedCbSet : Bool) : PFResult :=
  match processFileBody cfg f with
  | Except.ok r => r
  | Except.error msg =>
      { taskStatus := FileStatus.failed,
        taskError := some msg,
        fileRecordStatus := "error",
        enqueuedUpload := false,
        failedCallbackFired := failedCbSet }

/-! ### The in-flight maps of FileProcessor (claims about
processing_files and uploading_files) -/

/-- Association list standing for a Python dict from path to FileTask. -/
abbrev TaskMap := List (String × FileTask)

/-- Python dict read d.get(k): first binding for the key. -/
def dictGet : TaskMap → String → Option FileTask
  | [], _ => none
  | p :: m, k => if p.1 = k then some p.2 else dictGet m k

/-- Python dict assignment d[k] = v: replace the binding or append it. -/
def dictSet : TaskMap → String → FileTask → TaskMap
  | [], k, v => [(k, v)]
  | p :: m, k, v => if p.1 = k then (k, v) :: m else p :: dictSet m k v

/-- The two in-flight maps of FileProcessor, lines 100-102. -/
structure FPMaps where
  processingFiles : TaskMap
  uploadingFiles : TaskMap
deriving DecidableEq, Repr

/-- The only statements in file_processor.py that mutate processing_files
or uploading_files: the insertion in add_file (line 220) and the insertion
in _process_file (line 328). No method removes an entry. -/
inductive FPOp
  | addFileEntry (path : String) (t : FileTask)
  | markUploadingEntry (path : String) (t : FileTask)
deriving Repr

def applyFPOp (m : FPMaps) : FPOp → FPMaps
  | FPOp.addFileEntry p t =>
      { m with processingFiles := dictSet m.processingFiles p t }
  | FPOp.markUploadingEntry p t =>
      { m with uploadingFiles := dictSet m.uploadingFiles p t }

def applyFPOps (m : FPMaps) (ops : List FPOp) : FPMaps :=
  ops.foldl applyFPOp m

/-- get_queue_status, lines 530-538: the two reported counts. -/
def queueStatusCounts (m : FPMaps) : Nat × Nat :=
  (m.processingFiles.length, m.uploadingFiles.length)

/-- get_file_status, lines 540-566: processing_files first, then
uploading_files. -/
def getFileStatus (m : FPMaps) (p : String) : Option FileTask :=
  match dictGet m.processingFiles p with
  | some t => some t
  | none => dictGet m.uploadingFiles p

/-! ### FileProcessor.add_file (file_processor.py lines 201-229) -/

/-- The pieces of FileProcessor state that add_file touches. -/
structure FPQueueState where
  processingQueue : List FileTask
  processingFiles : TaskMap
deriving DecidableEq, Repr

/-- add_file: build a fresh PENDING FileTask (dataclass defaults
retry_count 0, max_retries 3), put it on processing_queue, and store it in
processing_files. There is no check against the in-flight maps. -/
def addFile (st : FPQueueState) (path : String) (priority : Int) : FPQueueState :=
  let t : FileTask :=
    { filePath := path, status := FileStatus.pending, priority := priority,
      retryCount := 0, maxRetries := 3, errorMessage := none }
  { processingQueue := st.processingQueue ++ [t],
    processingFiles := dictSet st.processingFiles path t }

/-! ## UploadService (src/src/services/upload_service.py) -/

/-- The UploadStatus enum, upload_service.py lines 27-34. -/
inductive UploadStatus
  | pending
  | uploading
  | success
  | failed
  | retry
  | cancelled
deriving DecidableEq, Repr

/-- The UploadTask dataclass, lines 37-52. -/
structure UploadTask where
  filePath : String
  fileInfoId : Nat
  uploadResultId : Nat
  status : UploadStatus
  priority : Int
  retryCount : Nat
  maxRetries : Nat
  errorMessage : Option String
  apiResponse : Option ApiResp
deriving DecidableEq, Repr

/-- UploadTask.can_retry, lines 80-82. -/
def UploadTask.canRetry (t : UploadTask) : Bool :=
  decide (t.retryCount < t.maxRetries)

/-- UploadTask.increment_retry, lines 75-78. -/
def UploadTask.incrementRetry (t : UploadTask) : UploadTask :=
  { t with retryCount := t.retryCount + 1 }

/-- UploadTask.update_status, lines 60-73: set the status; the
error_message field changes only when the kwarg is passed. -/
def UploadTask.updateStatus (t : UploadTask) (s : UploadStatus)
    (err : Option String) : UploadTask :=
  { t with status := s,
           errorMessage := match err with
             | some m => some m
             | none => t.errorMessage }

/-- Which optional callbacks are registered, and the fixed retry delay
(upload_service.py lines 104-138). -/
structure SvcConfig where
  retryDelay : Nat
  onStartedSet : Bool
  onCompletedSet : Bool
  onFailedSet : Bool
  onRetrySet : Bool
deriving DecidableEq, Repr

/-- The statistics dict, lines 126-132. pending_uploads is an integer
because retried items are decremented once per processing pass but
incremented only on submission. -/
structure SvcStats where
  totalUploads : Nat
  successfulUploads : Nat
  failedUploads : Nat
  retryUploads : Nat
  pendingUploads : Int
deriving DecidableEq, Repr

/-- The association list standing for the active_uploads dict. -/
abbrev ActiveMap := List (String × UploadTask)

def activeSet : ActiveMap → String → UploadTask → ActiveMap
  | [], k, v => [(k, v)]
  | p :: m, k, v => if p.1 = k then (k, v) :: m else p :: activeSet m k v

/-- active_uploads.pop(key, None): drop the first binding for the key. -/
def activePop : ActiveMap → String → ActiveMap
  | [], _ => []
  | p :: m, k => if p.1 = k then m else p :: activePop m k

/-- The pieces of UploadService state the failure and retry paths touch:
the two queues, the active map, the persisted record addressed by the
upload_result_id of the task in flight, and the statistics. -/
structure SvcState where
  uploadQueue : List UploadTask
  priorityQueue : List UploadTask
  active : ActiveMap
  record : UploadResult
  stats : SvcStats
deriving DecidableEq, Repr

/-- Observable side effects of the upload paths, recorded in order. -/
inductive SvcEvent
  | startedCallback
  | completedCallback
  | failedCallback (msg : String)
  | retryCallback (msg : String)
  | sleepFor (seconds : Nat)
  | persistRecord
  | transportCall (path : String)
  | enqueuePriority
  | enqueueDefault
deriving DecidableEq, Repr

def isFailedCallback : SvcEvent → Bool
  | SvcEvent.failedCallback _ => true
  | _ => false

def isRetryCallback : SvcEvent → Bool
  | SvcEvent.retryCallback _ => true
  | _ => false

def isPersistRecord : SvcEvent → Bool
  | SvcEvent.persistRecord => true
  | _ => false

def isEnqueueEvent : SvcEvent → Bool
  | SvcEvent.enqueuePriority => true
  | SvcEvent.enqueueDefault => true
  | _ => false

def isTransportCall : SvcEvent → Bool
  | SvcEvent.transportCall _ => true
  | _ => false

/-- Result of one transport call as seen by UploadService: the dict
returned by APIClient.upload_file. -/
structure ApiOutcome where
  success : Bool
  data : Option ApiResp
  error : Option String
deriving DecidableEq, Repr

/-- upload_result.get of the error key with its default, line 292. -/
def errMsgOf (o : ApiOutcome) : String :=
  o.error.getD ("알 수 없는 오류")

/-- add_upload_task, lines 181-216: build a fresh PENDING task (dataclass
defaults retry_count 0, max_retries 3), choose the queue by priority, and
bump total and pending counters. Nothing checks for an existing task. -/
def addUploadTask (st : SvcState) (path : String) (fileInfoId uploadResultId : Nat)
    (priority : Int) : SvcState :=
  let t : UploadTask :=
    { filePath := path, fileInfoId := fileInfoId, uploadResultId := uploadResultId,
      status := UploadStatus.pending, priority := priority, retryCount := 0,
      maxRetries := 3, errorMessage := none, apiResponse := none }
  let st1 :=
    if t.priority > 0 then { st with priorityQueue := st.priorityQueue ++ [t] }
    else { st with uploadQueue := st.uploadQueue ++ [t] }
  { st1 with stats := { st1.stats with
      totalUploads := st1.stats.totalUploads + 1,
      pendingUploads := st1.stats.pendingUploads + 1 } }

/-- _update_upload_result, lines 364-398: on SUCCESS status apply
update_api_response with the api_response of the task, otherwise apply
mark_upload_failed with the error_message of the task. One database write
per call. -/
def updateUploadResult (t : UploadTask) (st : SvcState) : SvcState × List SvcEvent :=
  if t.status = UploadStatus.success then
    ({ st with record := st.record.updateApiResponse (t.apiResponse.getD default) },
     [SvcEvent.persistRecord])
  else
    ({ st with record := st.record.markUploadFailed t.errorMessage none },
     [SvcEvent.persistRecord])

/-- _handle_upload_success, lines 260-286. -/
def handleUploadSuccess (cfg : SvcConfig) (t : UploadTask) (o : ApiOutcome)
    (st : SvcState) : UploadTask × SvcState × List SvcEvent :=
  let t1 := { t.updateStatus UploadStatus.success none with apiResponse := o.data }
  let r1 := updateUploadResult t1 st
  let st2 := { r1.1 with stats := { r1.1.stats with
      successfulUploads := r1.1.stats.successfulUploads + 1 } }
  let e2 := if cfg.onCompletedSet then [SvcEvent.completedCallback] else []
  (t1, st2, r1.2 ++ e2)

/-- _handle_upload_retry, lines 329-362: increment the retry counter, set
status RETRY with the error message, bump the retry statistic, fire the
retry callback, sleep for retry_delay, then put the same task back on the
queue matching its priority class. -/
def handleUploadRetry (cfg : SvcConfig) (t : UploadTask) (errMsg : String)
    (st : SvcState) : UploadTask × SvcState × List SvcEvent :=
  let t2 := (t.incrementRetry).updateStatus UploadStatus.retry (some errMsg)
  let st1 := { st with stats := { st.stats with
      retryUploads := st.stats.retryUploads + 1 } }
  let e1 := if cfg.onRetrySet then [SvcEvent.retryCallback errMsg] else []
  let e2 := [SvcEvent.sleepFor cfg.retryDelay]
  if t2.priority > 0 then
    (t2, { st1 with priorityQueue := st1.priorityQueue ++ [t2] },
     e1 ++ e2 ++ [SvcEvent.enqueuePriority])
  else
    (t2, { st1 with uploadQueue := st1.uploadQueue ++ [t2] },
     e1 ++ e2 ++ [SvcEvent.enqueueDefault])

/-- _handle_upload_failure, lines 288-327. When the task can still retry,
delegate to the retry path; otherwise run the terminal block, which the
source contains twice in sequence (lines 301-312 and lines 314-323):
database update, failed statistic, failure callback, then all three again. -/
def handleUploadFailure (cfg : SvcConfig) (t : UploadTask) (o : ApiOutcome)
    (st : SvcState) : UploadTask × SvcState × List SvcEvent :=
  let errMsg := errMsgOf o
  if t.canRetry then handleUploadRetry cfg t errMsg st
  else
    let t1 := t.updateStatus UploadStatus.failed (some errMsg)
    let r1 := updateUploadResult t1 st
    let st2 := { r1.1 with stats := { r1.1.stats with
        failedUploads := r1.1.stats.failedUploads + 1 } }
    let e2 := if cfg.onFailedSet then [SvcEvent.failedCallback errMsg] else []
    let r3 := updateUploadResult t1 st2
    let st4 := { r3.1 with stats := { r3.1.stats with
        failedUploads := r3.1.stats.failedUploads + 1 } }
    let e4 := if cfg.onFailedSet then [SvcEvent.failedCallback errMsg] else []
    (t1, st4, r1.2 ++ e2 ++ r3.2 ++ e4)

/-- _process_upload, lines 218-258: mark UPLOADING, register in
active_uploads and decrement pending, fire the started callback, invoke the
transport, dispatch to the success or failure handler, and finally pop the
task from active_uploads. -/
def processUpload (cfg : SvcConfig) (transport : String → ApiOutcome)
    (t : UploadTask) (st : SvcState) : UploadTask × SvcState × List SvcEvent :=
  let t1 := t.updateStatus UploadStatus.uploading none
  let st1 := { st with active := activeSet st.active t1.filePath t1,
                       stats := { st.stats with
                         pendingUploads := st.stats.pendingUploads - 1 } }
  let e1 := if cfg.onStartedSet then [SvcEvent.startedCallback] else []
  let o := transport t1.filePath
  let r :=
    if o.success then handleUploadSuccess cfg t1 o st1
    else handleUploadFailure cfg t1 o st1
  (r.1, { r.2.1 with active := activePop r.2.1.active r.1.filePath },
   e1 ++ [SvcEvent.transportCall t1.filePath] ++ r.2.2)

/-- One pass of _upload_worker, lines 156-175: take from the priority
queue first, else from the default queue, and process the task. -/
def workerStep (cfg : SvcConfig) (transport : String → ApiOutcome)
    (st : SvcState) : SvcState × List SvcEvent :=
  match st.priorityQueue with
  | t :: rest =>
      let r := processUpload cfg transport t { st with priorityQueue := rest }
      (r.2.1, r.2.2)
  | [] =>
      match st.uploadQueue with
      | t :: rest =>
          let r := processUpload cfg transport t { st with uploadQueue := rest }
          (r.2.1, r.2.2)
      | [] => (st, [])

/-- Iterated worker passes accumulating the event trace. -/
def runWorker (cfg : SvcConfig) (transport : String → ApiOutcome) :
    Nat → SvcState → SvcState × List SvcEvent
  | 0, st => (st, [])
  | Nat.succ n, st =>
      let r1 := workerStep cfg transport st
      let r2 := runWorker cfg transport n r1.1
      (r2.1, r1.2 ++ r2.2)

/-! ## APIClient.upload_file preconditions (src/src/services/api_client.py
lines 125-180) -/

/-- The filesystem facts APIClient consults. -/
structure FS where
  present : String → Bool
  sizeOf : String → Nat

/-- upload_file: before any transport interaction it raises (and its own
except-handler converts to a failure dict) when the path does not exist,
when the file exceeds max_file_size, or when the availability probe fails;
only otherwise does _perform_upload run. The second component counts
transport interactions. -/
def apiUploadFile (fs : FS) (maxFileSize : Nat) (apiAvailable : Bool)
    (transport : String → ApiOutcome) (path : String) : ApiOutcome × Nat :=
  if fs.present path = false then
    ({ success := false, data := none,
       error := some ("파일 업로드 중 오류 발생: 파일을 찾을 수 없습니다: " ++ path) }, 0)
  else if maxFileSize < fs.sizeOf path then
    ({ success := false, data := none,
       error := some ("파일 업로드 중 오류 발생: 파일 크기가 너무 큽니다") }, 0)
  else if apiAvailable = false then
    ({ success := false, data := none,
       error := some ("파일 업로드 중 오류 발생: API 서버에 연결할 수 없습니다.") }, 0)
  else (transport path, 1)

/-! ## UploaderService.upload_and_record (src/src/uploader/service.py
lines 41-103) -/

/-- The columns of the file_infos table the sweep and uploader read. -/
structure FileInfoRec where
  filePath : String
  fileName : String
  processingStatus : String
  isDeleted : Bool
deriving DecidableEq, Repr

/-- Exit value of the while-loop of upload_and_record, lines 62-94. -/
inductive LoopOutcome
  | success (attempt : Nat) (resp : ApiResp) (calls sleeps : Nat)
  | failure (attempt : Nat) (o : ApiOutcome) (calls sleeps : Nat)
  | fellThrough (calls sleeps : Nat)
deriving Repr

/-- The retry loop: attempt counts from 1; on failure it sleeps and retries
while attempt is below max_retries, and the available fuel is the number of
remaining loop iterations. outcomes gives the transport result of each
numbered attempt. -/
def uploadLoop (outcomes : Nat → ApiOutcome) (maxRetries : Nat) :
    Nat → Nat → Nat → Nat → LoopOutcome
  | 0, _, calls, sleeps => LoopOutcome.fellThrough calls sleeps
  | Nat.succ fuel, attempt, calls, sleeps =>
      let a := attempt + 1
      let o := outcomes a
      if o.success then LoopOutcome.success a (o.data.getD default) (calls + 1) sleeps
      else if a < maxRetries then
        uploadLoop outcomes maxRetries fuel a (calls + 1) (sleeps + 1)
      else LoopOutcome.failure a o (calls + 1) sleeps

/-- Observable result of upload_and_record: its return value, the final
FileInfo.processing_status, the persisted UploadResult if one was written,
and how often the transport ran and the loop slept. -/
structure UploaderResult where
  ok : Bool
  fileStatus : String
  record : Option UploadResult
  transportCalls : Nat
  sleeps : Nat
deriving Repr

/-- upload_and_record, lines 41-103: a missing file is recorded as a
terminal failure with error_type file_not_found before any transport call
(lines 54-59 and 211-248); otherwise the retry loop runs, ending in
_handle_upload_success (FileInfo uploaded, update_api_response, then
upload_attempts overwritten with the attempt number, lines 105-150) or in
_handle_upload_failure (FileInfo error, mark_upload_failed with the attempt
number, lines 152-209). -/
def uploadAndRecord (maxRetries : Nat) (fs : FS) (outcomes : Nat → ApiOutcome)
    (f : FileInfoRec) : UploaderResult :=
  if fs.present f.filePath = false then
    { ok := false, fileStatus := "error",
      record := some (UploadResult.fresh.markUploadFailed
        (some ("파일이 존재하지 않습니다: " ++ f.filePath))
        (some { info := "file_not_found", attemptNumber := none })),
      transportCalls := 0, sleeps := 0 }
  else
    match uploadLoop outcomes maxRetries maxRetries 0 0 0 with
    | LoopOutcome.success a resp calls sleeps =>
        { ok := true, fileStatus := "uploaded",
          record := some { UploadResult.fresh.updateApiResponse resp with
            uploadAttempts := a },
          transportCalls := calls, sleeps := sleeps }
    | LoopOutcome.failure a o calls sleeps =>
        { ok := false, fileStatus := "error",
          record := some (UploadResult.fresh.markUploadFailed
            (some (errMsgOf o))
            (some { info := "api_response", attemptNumber := some a })),
          transportCalls := calls, sleeps := sleeps }
    | LoopOutcome.fellThrough calls sleeps =>
        { ok := false, fileStatus := f.processingStatus, record := none,
          transportCalls := calls, sleeps := sleeps }

/-! ## MonitoringScheduler.process_pending_uploads
(src/src/services/scheduler.py lines 359-419) -/

/-- The query at lines 367-369: it filters the file_infos table on
processing_status equal to the literal pending only - no staleness clause,
no in-progress clause, and no query of upload_results. -/
def pendingQuery (store : List FileInfoRec) : List FileInfoRec :=
  store.filter (fun f => f.processingStatus = "pending")

/-- The sweep body, lines 381-397: call uploader_service.upload_and_record
on each selected record. -/
def processPendingUploads (maxRetries : Nat) (fs : FS)
    (outcomes : Nat → ApiOutcome) (store : List FileInfoRec) :
    List (FileInfoRec × UploaderResult) :=
  (pendingQuery store).map (fun f => (f, uploadAndRecord maxRetries fs outcomes f))

/-! ## Queue accounting of the upload worker (claim about task_done) -/

/-- The unfinished-task counters of the two queue.Queue instances of
UploadService (a put increments a counter, task_done decrements it, and
join returns only once it is zero). -/
structure QUnfinished where
  uploadUnfinished : Nat
  priorityUnfinished : Nat
deriving DecidableEq, Repr

/-- Lines 173-175 of upload_service.py: after processing one item the
worker calls upload_queue.task_done() and then priority_queue.task_done(),
regardless of which queue the item came from. task_done raises ValueError
when its counter is already zero, and the except clause at line 177 catches
it, so the second call is skipped whenever the first raises. -/
def workerTaskDone (q : QUnfinished) : QUnfinished :=
  if q.uploadUnfinished = 0 then q
  else
    let q1 : QUnfinished :=
      { uploadUnfinished := q.uploadUnfinished - 1,
        priorityUnfinished := q.priorityUnfinished }
    if q1.priorityUnfinished = 0 then q1
    else { q1 with priorityUnfinished := q1.priorityUnfinished - 1 }

def iterateWorkerTaskDone : Nat → QUnfinished → QUnfinished
  | 0, q => q
  | Nat.succ n, q => iterateWorkerTaskDone n (workerTaskDone q)

/-! ## Concrete fixtures used by the claim theorems and witnesses -/

/-- SvcConfig with every callback registered and the default ten second
retry delay. -/
def cfgAll : SvcConfig :=
  { retryDelay := 10, onStartedSet := true, onCompletedSet := true,
    onFailedSet := true, onRetrySet := true }

/-- Transport outcome of an attempt that exhausted the internal timeout
retries of APIClient._perform_upload. -/
def timeoutOutcome : ApiOutcome :=
  { success := false, data := none,
    error := some ("업로드 타임아웃 - 최대 재시도 횟수 초과") }

def statsZero : SvcStats :=
  { totalUploads := 0, successfulUploads := 0, failedUploads := 0,
    retryUploads := 0, pendingUploads := 0 }

def svcState0 : SvcState :=
  { uploadQueue := [], priorityQueue := [], active := [],
    record := UploadResult.fresh, stats := statsZero }

/-- Task of the max_retries = 2 scenario, freshly submitted. -/
def taskTwoRetries : UploadTask :=
  { filePath := "/watch/a.jpg", fileInfoId := 1, uploadResultId := 1,
    status := UploadStatus.pending, priority := 0, retryCount := 0,
    maxRetries := 2, errorMessage := none, apiResponse := none }

def stateTwoRetries : SvcState :=
  { uploadQueue := [taskTwoRetries], priorityQueue := [], active := [],
    record := UploadResult.fresh,
    stats := { totalUploads := 1, successfulUploads := 0, failedUploads := 0,
               retryUploads := 0, pendingUploads := 1 } }

/-- Three worker passes over the max_retries = 2 task with every transport
attempt timing out: two retry passes and one terminal pass. -/
def runTwoRetries : SvcState × List SvcEvent :=
  runWorker cfgAll (fun _ => timeoutOutcome) 3 stateTwoRetries

/-- A task whose retries are exhausted. -/
def taskExhausted : UploadTask :=
  { filePath := "/watch/a.jpg", fileInfoId := 1, uploadResultId := 1,
    status := UploadStatus.uploading, priority := 0, retryCount := 3,
    maxRetries := 3, errorMessage := none, apiResponse := none }

def fpState0 : FPQueueState := { processingQueue := [], processingFiles := [] }

def cfgFP : FPConfig :=
  { maxFileSize := 100 * 1024 * 1024,
    imageExtensions := [".jpg", ".jpeg", ".png", ".gif", ".bmp", ".tiff"] }

/-- A present, small jpg file that passes _validate_file. -/
def smallJpg : SrcFile := { present := true, size := 1024, suffix := ".jpg" }

/-- Filesystem on which every path is missing. -/
def fsEmpty : FS := { present := fun _ => false, sizeOf := fun _ => 0 }

/-- Filesystem on which every path exists with a small size. -/
def fsAll : FS := { present := fun _ => true, sizeOf := fun _ => 1024 }

/-- The failure dict APIClient.upload_file returns for a missing path,
produced before any transport interaction. -/
def fnfOutcome : ApiOutcome :=
  (apiUploadFile fsEmpty 1000 true (fun _ => timeoutOutcome) ("/watch/gone.jpg")).1

/-- A fresh task for the missing file. -/
def taskGone : UploadTask :=
  { filePath := "/watch/gone.jpg", fileInfoId := 1, uploadResultId := 1,
    status := UploadStatus.uploading, priority := 0, retryCount := 0,
    maxRetries := 3, errorMessage := none, apiResponse := none }

/-- A FileInfo row left in processing status, the crash-recovery case. -/
def staleRec : FileInfoRec :=
  { filePath := "/watch/stale.jpg", fileName := "stale.jpg",
    processingStatus := "processing", isDeleted := false }

def sampleResp : ApiResp :=
  { fileId := some ("fid-1"), filename := some ("a.jpg"), fileSize := some 1024,
    downloadUrl := some ("http://h/d/a.jpg"), viewUrl := some ("http://h/v/a.jpg"),
    message := some ("Upload successful") }

def sampleFileTask : FileTask :=
  { filePath := "/watch/a.jpg", status := FileStatus.pending, priority := 0,
    retryCount := 0, maxRetries := 3, errorMessage := none }

/-- In-flight maps holding one processing entry. -/
def mapsOneEntry : FPMaps :=
  { processingFiles := [("/watch/a.jpg", sampleFileTask)], uploadingFiles := [] }

def opsOneInsert : List FPOp :=
  [FPOp.markUploadingEntry ("/watch/a.jpg") sampleFileTask]

def qStuck : QUnfinished := { uploadUnfinished := 0, priorityUnfinished := 1 }

/-! ## Helper lemmas -/

/-- Attempts never decrease across one operation. -/
theorem UploadResult.attempts_le_applyOp (r : UploadResult) (op : UROp) :
    r.uploadAttempts ≤ (r.applyOp op).uploadAttempts := by
  cases op <;>
    simp [UploadResult.applyOp, UploadResult.updateApiResponse,
      UploadResult.markUploadFailed, UploadResult.markInProgress,
      UploadResult.resetForRetry]

/-- Attempts never decrease across a sequence of operations. -/
theorem UploadResult.attempts_le_applyOps (ops : List UROp) :
    ∀ r : UploadResult, r.uploadAttempts ≤ (r.applyOps ops).uploadAttempts := by
  induction ops with
  | nil => intro r; simp [UploadResult.applyOps]
  | cons op ops ih =>
      intro r
      have h1 := UploadResult.attempts_le_applyOp r op
      have h2 := ih (r.applyOp op)
      simp only [UploadResult.applyOps, List.foldl_cons] at h2 ⊢
      exact le_trans h1 h2

/-- Only reset_for_retry produces the pending status. -/
theorem UploadResult.pending_only_by_reset (r : UploadResult) (op : UROp)
    (h : (r.applyOp op).uploadStatus = "pending") : op = UROp.resetForRetry := by
  cases op <;>
    simp_all [UploadResult.applyOp, UploadResult.updateApiResponse,
      UploadResult.markUploadFailed, UploadResult.markInProgress,
      UploadResult.resetForRetry]

theorem length_le_dictSet (m : TaskMap) (k : String) (v : FileTask) :
    m.length ≤ (dictSet m k v).length := by
  induction m with
  | nil => simp [dictSet]
  | cons p m ih =>
      by_cases h : p.1 = k
      · simp [dictSet, h]
      · simp only [dictSet, h, if_false, List.length_cons]
        omega

theorem dictGet_isSome_dictSet (m : TaskMap) (k k' : String) (v : FileTask)
    (h : (dictGet m k').isSome) : (dictGet (dictSet m k v) k').isSome := by
  induction m with
  | nil => simp [dictGet] at h
  | cons p m ih =>
      simp only [dictGet] at h
      by_cases hp : p.1 = k
      · by_cases hk : k = k'
        · simp [dictSet, dictGet, hp, hk]
        · have hpk : ¬ p.1 = k' := fun hh => hk (hp ▸ hh)
          simp only [hpk, if_false] at h
          simp only [dictSet, hp, if_true, dictGet, hk, if_false]
          exact h
      · by_cases hk : p.1 = k'
        · have hkk : ¬ k' = k := fun hh => hp (hk.trans hh)
          simp [dictSet, dictGet, hp, hk, hkk]
        · simp only [hk, if_false] at h
          simp only [dictSet, hp, if_false, dictGet, hk]
          exact ih h

theorem applyFPOp_counts_le (m : FPMaps) (op : FPOp) :
    (queueStatusCounts m).1 ≤ (queueStatusCounts (applyFPOp m op)).1 ∧
    (queueStatusCounts m).2 ≤ (queueStatusCounts (applyFPOp m op)).2 := by
  cases op with
  | addFileEntry p t =>
      exact ⟨length_le_dictSet m.processingFiles p t, le_refl _⟩
  | markUploadingEntry p t =>
      exact ⟨le_refl _, length_le_dictSet m.uploadingFiles p t⟩

theorem applyFPOp_getFileStatus_isSome (m : FPMaps) (op : FPOp) (p : String)
    (h : (getFileStatus m p).isSome) : (getFileStatus (applyFPOp m op) p).isSome := by
  cases op with
  | addFileEntry q t =>
      simp only [applyFPOp, getFileStatus] at h ⊢
      cases hg : dictGet m.processingFiles p with
      | some v =>
          have := dictGet_isSome_dictSet m.processingFiles q p t (by simp [hg])
          cases hg2 : dictGet (dictSet m.processingFiles q t) p with
          | some w => simp
          | none => simp [hg2] at this
      | none =>
          cases hg2 : dictGet (dictSet m.processingFiles q t) p with
          | some w => simp
          | none => simpa [hg] using h
  | markUploadingEntry q t =>
      simp only [applyFPOp, getFileStatus] at h ⊢
      cases hg : dictGet m.processingFiles p with
      | some v => simp
      | none =>
          simp only [hg] at h
          exact dictGet_isSome_dictSet m.uploadingFiles q p t h

theorem applyFPOps_counts_le (ops : List FPOp) :
    ∀ m : FPMaps,
      (queueStatusCounts m).1 ≤ (queueStatusCounts (applyFPOps m ops)).1 ∧
      (queueStatusCounts m).2 ≤ (queueStatusCounts (applyFPOps m ops)).2 := by
  induction ops with
  | nil => intro m; simp [applyFPOps]
  | cons op ops ih =>
      intro m
      have h1 := applyFPOp_counts_le m op
      have h2 := ih (applyFPOp m op)
      simp only [applyFPOps, List.foldl_cons] at h2 ⊢
      exact ⟨le_trans h1.1 h2.1, le_trans h1.2 h2.2⟩

theorem applyFPOps_getFileStatus_isSome (ops : List FPOp) :
    ∀ (m : FPMaps) (p : String), (getFileStatus m p).isSome →
      (getFileStatus (applyFPOps m ops) p).isSome := by
  induction ops with
  | nil => intro m p h; simpa [applyFPOps] using h
  | cons op ops ih =>
      intro m p h
      have h1 := applyFPOp_getFileStatus_isSome m op p h
      have h2 := ih (applyFPOp m op) p h1
      simpa [applyFPOps] using h2

/-- The retry path always re-enqueues exactly once. -/
theorem enqueue_count_retry (cfg : SvcConfig) (t : UploadTask) (msg : String)
    (st : SvcState) :
    ((handleUploadRetry cfg t msg st).2.2).countP isEnqueueEvent = 1 := by
  by_cases hp : 0 < t.priority
  · cases hr : cfg.onRetrySet <;>
      simp [handleUploadRetry, UploadTask.incrementRetry, UploadTask.updateStatus,
        hp, hr, isEnqueueEvent, List.countP_append, List.countP_cons]
  · cases hr : cfg.onRetrySet <;>
      simp [handleUploadRetry, UploadTask.incrementRetry, UploadTask.updateStatus,
        hp, hr, isEnqueueEvent, List.countP_append, List.countP_cons]

/-- The terminal branch never re-enqueues. -/
theorem enqueue_count_terminal (cfg : SvcConfig) (t : UploadTask) (o : ApiOutcome)
    (st : SvcState) (h : t.canRetry = false) :
    ((handleUploadFailure cfg t o st).2.2).countP isEnqueueEvent = 0 := by
  cases hf : cfg.onFailedSet <;>
    simp [handleUploadFailure, h, hf, updateUploadResult, UploadTask.updateStatus,
      isEnqueueEvent, List.countP_append, List.countP_cons]

/-! ## Claim theorems -/

/-- Claim C1 (code bug). For every file task whose file passes validation,
_process_file nevertheless ends in the error branch: line 310 evaluates
FileStatus.COMPLETED, a member absent from the enum at lines 28-36, so the
AttributeError sends control to the except handler, which marks the task
FAILED and the FileRecord error, fires the failure callback, and never
enqueues the task for upload — the opposite of the claimed mark-processed
and forward behaviour. -/
theorem c1_valid_file_hits_error_branch (cfg : FPConfig) (f : SrcFile) (cb : Bool)
    (h : validateFile cfg f = true) :
    (processFile cfg f cb).fileRecordStatus = "error" ∧
    (processFile cfg f cb).enqueuedUpload = false ∧
    (processFile cfg f cb).taskStatus = FileStatus.failed ∧
    (processFile cfg f cb).failedCallbackFired = cb := by
  have hm : fileStatusMember ("COMPLETED") = none := rfl
  simp [processFile, processFileBody, h, hm]

/-- Claim C1 witness: a present 1 KiB jpg under the default limits. -/
theorem c1_valid_file_hits_error_branch_witness :
    (processFile cfgFP smallJpg true).fileRecordStatus = "error" ∧
    (processFile cfgFP smallJpg true).enqueuedUpload = false ∧
    (processFile cfgFP smallJpg true).taskStatus = FileStatus.failed ∧
    (processFile cfgFP smallJpg true).failedCallbackFired = true :=
  c1_valid_file_hits_error_branch cfgFP smallJpg true (by decide)

/-- Claim C2 (code bug). On a terminal failure (retries exhausted) the
duplicated block in _handle_upload_failure, lines 301-323, runs the
persist, statistic and callback effects twice each: two database writes,
failed_uploads incremented by two, the failure callback fired twice, and
the record attempt counter bumped twice — not exactly once as claimed. -/
theorem c2_terminal_failure_effects_doubled (cfg : SvcConfig) (t : UploadTask)
    (o : ApiOutcome) (st : SvcState) (hcb : cfg.onFailedSet = true)
    (h : t.maxRetries ≤ t.retryCount) :
    (handleUploadFailure cfg t o st).2.2.countP isFailedCallback = 2 ∧
    (handleUploadFailure cfg t o st).2.2.countP isPersistRecord = 2 ∧
    (handleUploadFailure cfg t o st).2.1.stats.failedUploads
      = st.stats.failedUploads + 2 ∧
    (handleUploadFailure cfg t o st).2.1.record.uploadAttempts
      = st.record.uploadAttempts + 2 := by
  have hcr : t.canRetry = false := by
    simp [UploadTask.canRetry]
    omega
  simp [handleUploadFailure, hcr, hcb, updateUploadResult, UploadTask.updateStatus,
    UploadResult.markUploadFailed, isFailedCallback, isPersistRecord]

/-- Claim C2 witness: the exhausted task under a timeout outcome. -/
theorem c2_terminal_failure_effects_doubled_witness :
    (handleUploadFailure cfgAll taskExhausted timeoutOutcome svcState0).2.2.countP
        isFailedCallback = 2 ∧
    (handleUploadFailure cfgAll taskExhausted timeoutOutcome svcState0).2.2.countP
        isPersistRecord = 2 ∧
    (handleUploadFailure cfgAll taskExhausted timeoutOutcome svcState0).2.1.stats.failedUploads
      = svcState0.stats.failedUploads + 2 ∧
    (handleUploadFailure cfgAll taskExhausted timeoutOutcome svcState0).2.1.record.uploadAttempts
      = svcState0.record.uploadAttempts + 2 :=
  c2_terminal_failure_effects_doubled cfgAll taskExhausted timeoutOutcome svcState0
    rfl (by decide)

/-- Claim C3 counterexample. In the max_retries = 2 scenario with every
transport attempt timing out, the persisted record does end failed, but its
attempt counter is 2, not 3: the retry passes persist nothing and the
terminal pass calls mark_upload_failed twice via the duplicated block. -/
theorem c3_attempt_count_not_three :
    (runTwoRetries.1.record.uploadStatus = "failed") ∧
    ¬ (runTwoRetries.1.record.uploadAttempts = 3) := by
  constructor
  · rfl
  · decide

/-- Claim C3 amended. max_retries = 2, every attempt a timeout: the
transport runs three times, the final record is failed with the last
failure in error_message, and upload_attempts ends at 2. -/
theorem c3_final_record :
    runTwoRetries.1.record.uploadStatus = "failed" ∧
    runTwoRetries.1.record.uploadAttempts = 2 ∧
    runTwoRetries.1.record.errorMessage
      = some ("업로드 타임아웃 - 최대 재시도 횟수 초과") ∧
    runTwoRetries.2.countP isTransportCall = 3 := by
  refine ⟨rfl, rfl, rfl, ?_⟩
  decide

/-- Claim C4 counterexample. Submitting the same path twice in a row, with
the first task still queued and registered in-flight, creates a second
queued task for that path in both stages: neither add_file nor
add_upload_task rejects or absorbs the duplicate. -/
theorem c4_duplicate_submission_creates_second_task :
    ((addFile (addFile fpState0 ("/watch/a.jpg") 0) ("/watch/a.jpg") 0).processingQueue.countP
      (fun t => t.filePath = "/watch/a.jpg")) = 2 ∧
    ((addUploadTask (addUploadTask svcState0 ("/watch/a.jpg") 1 1 0)
        ("/watch/a.jpg") 1 1 0).uploadQueue.countP
      (fun t => t.filePath = "/watch/a.jpg")) = 2 := by
  constructor
  · decide
  · decide

/-- Claim C4 amended. There is no in-flight de-duplication: every call of
add_file appends exactly one new task to processing_queue and every call of
add_upload_task appends exactly one new task to one of the two upload
queues, regardless of any existing task for the same path. -/
theorem c4_submission_always_appends (st : FPQueueState) (path : String)
    (priority : Int) (st' : SvcState) (path' : String) (fid rid : Nat)
    (priority' : Int) :
    (addFile st path priority).processingQueue.length
      = st.processingQueue.length + 1 ∧
    (addUploadTask st' path' fid rid priority').uploadQueue.length
        + (addUploadTask st' path' fid rid priority').priorityQueue.length
      = st'.uploadQueue.length + st'.priorityQueue.length + 1 := by
  constructor
  · simp [addFile]
  · by_cases hp : priority' > 0
    · simp [addUploadTask, hp]
      omega
    · simp [addUploadTask, hp]
      omega

/-- Claim C5 counterexample. A FileRecord left in processing status (the
crash-recovery case the claim covers) is never selected by
process_pending_uploads: the query matches only the literal pending
status, so the sweep re-injects nothing for it. -/
theorem c5_stale_processing_not_selected :
    staleRec.processingStatus = "processing" ∧
    processPendingUploads 3 fsAll (fun _ => timeoutOutcome) [staleRec] = [] := by
  exact ⟨rfl, rfl⟩

/-- Claim C5 amended. The sweep query selects exactly the FileRecords whose
processing_status equals the literal pending - there is no staleness
clause, no in_progress clause and no UploadRecord query - and the records
it re-injects through uploader_service.upload_and_record are exactly the
selected ones; a record left in processing status is never selected. -/
theorem c5_query_selects_exactly_pending (maxR : Nat) (fs : FS)
    (outs : Nat → ApiOutcome) (store : List FileInfoRec) (f : FileInfoRec)
    (hproc : f.processingStatus = "processing") :
    (∀ g : FileInfoRec,
      (g ∈ pendingQuery store ↔ g ∈ store ∧ g.processingStatus = "pending")) ∧
    f ∉ pendingQuery store ∧
    (processPendingUploads maxR fs outs store).map Prod.fst = pendingQuery store := by
  refine ⟨?_, ?_, ?_⟩
  · intro g
    simp [pendingQuery, List.mem_filter]
  · intro hmem
    have := (by simp [pendingQuery, List.mem_filter] : f ∈ pendingQuery store ↔
      f ∈ store ∧ f.processingStatus = "pending").mp hmem
    rw [hproc] at this
    simp at this
  · simp only [processPendingUploads]
    generalize pendingQuery store = l
    induction l with
    | nil => simp
    | cons a l ih => simp [ih]

/-- Claim C5 witness: a pending record is selected, the stale processing
record is not. -/
theorem c5_query_selects_exactly_pending_witness :
    (∀ g : FileInfoRec,
      (g ∈ pendingQuery [staleRec] ↔ g ∈ [staleRec] ∧ g.processingStatus = "pending")) ∧
    staleRec ∉ pendingQuery [staleRec] ∧
    (processPendingUploads 3 fsAll (fun _ => timeoutOutcome) [staleRec]).map Prod.fst
      = pendingQuery [staleRec] :=
  c5_query_selects_exactly_pending 3 fsAll (fun _ => timeoutOutcome) [staleRec]
    staleRec rfl

/-- Claim C6 counterexample. A file missing before the transport call is
made - APIClient.upload_file returns its failure dict with zero transport
interactions - is nevertheless re-enqueued by the upload stage: the failure
handler re-enqueues it once, not zero times. -/
theorem c6_file_not_found_is_retried :
    (apiUploadFile fsEmpty 1000 true (fun _ => timeoutOutcome) ("/watch/gone.jpg")).2
      = 0 ∧
    (handleUploadFailure cfgAll taskGone fnfOutcome svcState0).2.2.countP
      isEnqueueEvent = 1 := by
  constructor
  · rfl
  · decide

/-- Claim C6 amended. The retry dispatch of UploadService is blind to the
failure kind: for every outcome, including the file-not-found failure dict,
the handler re-enqueues exactly when retries remain. The
file-not-found-to-terminal-failure short-circuit with zero transport calls
exists only in UploaderService.upload_and_record, the path used by the
sweep, which writes a failed record with error_type file_not_found without
invoking the transport or sleeping. -/
theorem c6_kind_blind_retry_and_uploader_shortcircuit (cfg : SvcConfig)
    (t : UploadTask) (o : ApiOutcome) (st : SvcState) (maxR : Nat) (fs : FS)
    (outs : Nat → ApiOutcome) (f : FileInfoRec)
    (hmiss : fs.present f.filePath = false) :
    (handleUploadFailure cfg t o st).2.2.countP isEnqueueEvent
      = (if t.canRetry then 1 else 0) ∧
    (uploadAndRecord maxR fs outs f).transportCalls = 0 ∧
    (uploadAndRecord maxR fs outs f).sleeps = 0 ∧
    (uploadAndRecord maxR fs outs f).ok = false ∧
    (uploadAndRecord maxR fs outs f).record
      = some (UploadResult.fresh.markUploadFailed
          (some ("파일이 존재하지 않습니다: " ++ f.filePath))
          (some { info := "file_not_found", attemptNumber := none })) := by
  refine ⟨?_, ?_, ?_, ?_, ?_⟩
  · by_cases hcr : t.canRetry = true
    · have h1 : handleUploadFailure cfg t o st = handleUploadRetry cfg t (errMsgOf o) st := by
        simp [handleUploadFailure, hcr]
      rw [h1, enqueue_count_retry, hcr]
      simp
    · have hcf : t.canRetry = false := by
        cases hb : t.canRetry
        · rfl
        · exact absurd hb hcr
      rw [enqueue_count_terminal cfg t o st hcf, hcf]
      simp
  · simp [uploadAndRecord, hmiss]
  · simp [uploadAndRecord, hmiss]
  · simp [uploadAndRecord, hmiss]
  · simp [uploadAndRecord, hmiss]

/-- Claim C6 witness: the missing-file record written by upload_and_record
and the kind-blind count at a retryable task. -/
theorem c6_kind_blind_retry_and_uploader_shortcircuit_witness :
    (handleUploadFailure cfgAll taskGone fnfOutcome svcState0).2.2.countP
        isEnqueueEvent = (if taskGone.canRetry then 1 else 0) ∧
    (uploadAndRecord 3 fsEmpty (fun _ => timeoutOutcome) staleRec).transportCalls = 0 ∧
    (uploadAndRecord 3 fsEmpty (fun _ => timeoutOutcome) staleRec).sleeps = 0 ∧
    (uploadAndRecord 3 fsEmpty (fun _ => timeoutOutcome) staleRec).ok = false ∧
    (uploadAndRecord 3 fsEmpty (fun _ => timeoutOutcome) staleRec).record
      = some (UploadResult.fresh.markUploadFailed
          (some ("파일이 존재하지 않습니다: " ++ staleRec.filePath))
          (some { info := "file_not_found", attemptNumber := none })) :=
  c6_kind_blind_retry_and_uploader_shortcircuit cfgAll taskGone fnfOutcome svcState0
    3 fsEmpty (fun _ => timeoutOutcome) staleRec rfl

/-- Claim C7. While retries remain, the failure handler increments the
retry counter, sets the task status to RETRY, fires the retry callback,
sleeps for retry_delay_seconds, and re-enqueues the same task onto the
queue of its priority class. -/
theorem c7_retry_path_behaviour (cfg : SvcConfig) (t : UploadTask)
    (o : ApiOutcome) (st : SvcState) (hcb : cfg.onRetrySet = true)
    (h : t.retryCount < t.maxRetries) :
    (handleUploadFailure cfg t o st).1.retryCount = t.retryCount + 1 ∧
    (handleUploadFailure cfg t o st).1.status = UploadStatus.retry ∧
    (handleUploadFailure cfg t o st).2.2
      = [SvcEvent.retryCallback (errMsgOf o), SvcEvent.sleepFor cfg.retryDelay,
         if 0 < t.priority then SvcEvent.enqueuePriority else SvcEvent.enqueueDefault] ∧
    (0 < t.priority →
      (handleUploadFailure cfg t o st).2.1.priorityQueue
          = st.priorityQueue ++ [(handleUploadFailure cfg t o st).1] ∧
      (handleUploadFailure cfg t o st).2.1.uploadQueue = st.uploadQueue) ∧
    (¬ 0 < t.priority →
      (handleUploadFailure cfg t o st).2.1.uploadQueue
          = st.uploadQueue ++ [(handleUploadFailure cfg t o st).1] ∧
      (handleUploadFailure cfg t o st).2.1.priorityQueue = st.priorityQueue) := by
  have hcr : t.canRetry = true := decide_eq_true h
  by_cases hp : 0 < t.priority
  · simp [handleUploadFailure, handleUploadRetry, hcr, hcb, hp,
      UploadTask.incrementRetry, UploadTask.updateStatus]
  · simp [handleUploadFailure, handleUploadRetry, hcr, hcb, hp,
      UploadTask.incrementRetry, UploadTask.updateStatus]

/-- Claim C7 witness: the fresh max_retries = 2 task under a timeout. -/
theorem c7_retry_path_behaviour_witness :
    (handleUploadFailure cfgAll taskTwoRetries timeoutOutcome svcState0).1.retryCount
      = taskTwoRetries.retryCount + 1 ∧
    (handleUploadFailure cfgAll taskTwoRetries timeoutOutcome svcState0).1.status
      = UploadStatus.retry ∧
    (handleUploadFailure cfgAll taskTwoRetries timeoutOutcome svcState0).2.2
      = [SvcEvent.retryCallback (errMsgOf timeoutOutcome),
         SvcEvent.sleepFor cfgAll.retryDelay,
         if 0 < taskTwoRetries.priority then SvcEvent.enqueuePriority
         else SvcEvent.enqueueDefault] ∧
    (0 < taskTwoRetries.priority →
      (handleUploadFailure cfgAll taskTwoRetries timeoutOutcome svcState0).2.1.priorityQueue
          = svcState0.priorityQueue
            ++ [(handleUploadFailure cfgAll taskTwoRetries timeoutOutcome svcState0).1] ∧
      (handleUploadFailure cfgAll taskTwoRetries timeoutOutcome svcState0).2.1.uploadQueue
          = svcState0.uploadQueue) ∧
    (¬ 0 < taskTwoRetries.priority →
      (handleUploadFailure cfgAll taskTwoRetries timeoutOutcome svcState0).2.1.uploadQueue
          = svcState0.uploadQueue
            ++ [(handleUploadFailure cfgAll taskTwoRetries timeoutOutcome svcState0).1] ∧
      (handleUploadFailure cfgAll taskTwoRetries timeoutOutcome svcState0).2.1.priorityQueue
          = svcState0.priorityQueue) :=
  c7_retry_path_behaviour cfgAll taskTwoRetries timeoutOutcome svcState0 rfl
    (by decide)

/-- Claim C8 counterexample. The success status is not immutable: applying
mark_upload_failed to a record in success status unconditionally overwrites
it with failed (and mark_in_progress or reset_for_retry would likewise
overwrite it). -/
theorem c8_success_overwritten_by_mark_failed :
    (UploadResult.fresh.applyOp (UROp.updateApiResponse sampleResp)).uploadStatus
      = "success" ∧
    ((UploadResult.fresh.applyOp (UROp.updateApiResponse sampleResp)).applyOp
        (UROp.markUploadFailed (some ("boom")) none)).uploadStatus = "failed" := by
  exact ⟨rfl, rfl⟩

/-- Claim C8 amended. Over every sequence of UploadResult operations the
attempt counter never decreases, and an operation yields the pending status
only when it is reset_for_retry (hence failed moves back to pending only
through it); the success status, however, is not immutable. -/
theorem c8_attempts_monotone_and_pending_only_by_reset (r : UploadResult)
    (ops : List UROp) (op : UROp)
    (h : (r.applyOp op).uploadStatus = "pending") :
    op = UROp.resetForRetry ∧
    r.uploadAttempts ≤ (r.applyOps ops).uploadAttempts :=
  ⟨UploadResult.pending_only_by_reset r op h,
   UploadResult.attempts_le_applyOps ops r⟩

/-- Claim C8 witness: reset_for_retry on a failed record, and monotonicity
over a mark_in_progress step. -/
theorem c8_attempts_monotone_and_pending_only_by_reset_witness :
    UROp.resetForRetry = UROp.resetForRetry ∧
    UploadResult.fresh.uploadAttempts
      ≤ (UploadResult.fresh.applyOps [UROp.markInProgress]).uploadAttempts :=
  c8_attempts_monotone_and_pending_only_by_reset UploadResult.fresh
    [UROp.markInProgress] UROp.resetForRetry (by decide)

/-- Claim C9. The worker calls task_done on both queues unconditionally;
when the item came from the priority queue and the default queue has no
unfinished tasks, upload_queue.task_done() raises ValueError first, the
except clause swallows it, priority_queue.task_done() never runs, and the
priority counter stays at its positive value across every further worker
pass, so priority_queue.join() inside stop() can never observe zero. -/
theorem c9_priority_task_done_skipped_join_blocked (q : QUnfinished) (n : Nat)
    (h0 : q.uploadUnfinished = 0) (h1 : 0 < q.priorityUnfinished) :
    workerTaskDone q = q ∧
    iterateWorkerTaskDone n q = q ∧
    (iterateWorkerTaskDone n q).priorityUnfinished ≠ 0 := by
  have hw : workerTaskDone q = q := by
    simp [workerTaskDone, h0]
  have hit : ∀ m : Nat, iterateWorkerTaskDone m q = q := by
    intro m
    induction m with
    | zero => rfl
    | succ m ih =>
        simp only [iterateWorkerTaskDone, hw]
        exact ih
  refine ⟨hw, hit n, ?_⟩
  rw [hit n]
  omega

/-- Claim C9 witness: one unfinished priority task, empty default queue,
five further worker passes. -/
theorem c9_priority_task_done_skipped_join_blocked_witness :
    workerTaskDone qStuck = qStuck ∧
    iterateWorkerTaskDone 5 qStuck = qStuck ∧
    (iterateWorkerTaskDone 5 qStuck).priorityUnfinished ≠ 0 :=
  c9_priority_task_done_skipped_join_blocked qStuck 5 rfl (by decide)

/-- Claim C10. Under the only two statements that ever write to
processing_files or uploading_files (both insertions; nothing in the class
removes an entry), the two counts reported by get_queue_status never
decrease and get_file_status keeps answering for every path it ever
answered for. -/
theorem c10_inflight_maps_monotone (m : FPMaps) (ops : List FPOp) (p : String)
    (h : (getFileStatus m p).isSome) :
    (queueStatusCounts m).1 ≤ (queueStatusCounts (applyFPOps m ops)).1 ∧
    (queueStatusCounts m).2 ≤ (queueStatusCounts (applyFPOps m ops)).2 ∧
    (getFileStatus (applyFPOps m ops) p).isSome :=
  ⟨(applyFPOps_counts_le ops m).1, (applyFPOps_counts_le ops m).2,
   applyFPOps_getFileStatus_isSome ops m p h⟩

/-- Claim C10 witness: a map holding one processed path, then an insertion
into the uploading map. -/
theorem c10_inflight_maps_monotone_witness :
    (queueStatusCounts mapsOneEntry).1
      ≤ (queueStatusCounts (applyFPOps mapsOneEntry opsOneInsert)).1 ∧
    (queueStatusCounts mapsOneEntry).2
      ≤ (queueStatusCounts (applyFPOps mapsOneEntry opsOneInsert)).2 ∧
    (getFileStatus (applyFPOps mapsOneEntry opsOneInsert) ("/watch/a.jpg")).isSome :=
  c10_inflight_maps_monotone mapsOneEntry opsOneInsert ("/watch/a.jpg") (by decide)

end WatchUpload
